import Mathlib

/-!
# Verification of the county building-permits scraper core

A shallow embedding of `county_permits_scraper.py`: the extractor functions
(`parse_accela_results`, `parse_nashville_results`, `parse_csv_permits`), the
CSV sink (`save_to_csv`, `generate_sorted_versions`) and the orchestrator
(`run_all` over the four per-county scrape methods), together with theorems
about their behaviour.

Modelling conventions:
* Python `str` values are Lean `String`s; `str.strip()` is `pyStrip`.
* A rendered page is abstracted to the data the extractors inspect: the first
  `<table>` as an optional list of rows (each row the list of its `<td>` text
  contents) and, for the Nashville extractor, the list of text contents of the
  block elements whose class matches the `permit|result|record` pattern.
* A permit dict is a six-field structure (each dict literal in the source
  builds exactly these six keys, with string values).
* `datetime.strptime(s, "%m/%d/%Y")` is `parseDateMDY`, returning `none` where
  Python raises `ValueError`, and encoding a parsed date as the naturally
  ordered number `y*10000 + m*100 + d`.
* Python `float(...)` applied to a digits-and-dots string is `parseFloatDD`,
  valued in `ℚ` (`none` where Python raises `ValueError`).
* `list.sort` / `sorted` with a key and optional `reverse=True` is a stable
  sort by the induced comparator.  CPython precomputes every key before moving
  any element, so a key that raises leaves the list untouched; stable sorts
  under a total preorder agree extensionally, so `List.insertionSort` is a
  faithful stand-in for Timsort.
* Writing a CSV file is modelled by returning the rows that would be written;
  `save_to_csv` returns `none` when it writes no file (empty record list).
-/

namespace EdgePermits

/-- Whitespace recognised by Python `str.strip()` (the ASCII subset, which is
all that the scraped text model needs). -/
def isWS (c : Char) : Bool :=
  c = ' ' || c = '\t' || c = '\n' || c = '\r' || c = '\x0b' || c = '\x0c'

/-- Strip leading and trailing whitespace characters from a character list. -/
def stripChars (l : List Char) : List Char :=
  ((l.dropWhile isWS).reverse.dropWhile isWS).reverse

/-- Model of Python `str.strip()`. -/
def pyStrip (s : String) : String := ⟨stripChars s.data⟩

/-- Split a character list at every occurrence of `sep`.  Mirrors Python
`str.split(sep)` for a one-character separator: the result is never empty and
splitting the empty string yields `[[]]`. -/
def splitChar (sep : Char) : List Char → List (List Char)
  | [] => [[]]
  | c :: rest =>
    match splitChar sep rest with
    | [] => [[c]]
    | h :: t => if c = sep then [] :: h :: t else (c :: h) :: t

/-- Model of Python `s.split(sep)` for a one-character separator (the source
only ever splits on `'\n'`, `','` and, inside date parsing, `'/'`). -/
def pySplit (sep : Char) (s : String) : List String :=
  (splitChar sep s.data).map String.mk

/-- Numeric value of a digit string (used after an all-digits check). -/
def digitsVal (l : List Char) : Nat :=
  l.foldl (fun n c => n * 10 + (c.toNat - 48)) 0

/-- ASCII lower-casing of one character, as Python `str.lower()` does on the
ASCII range (the only range the model needs). -/
def pyLowerChar (c : Char) : Char :=
  if 'A' ≤ c && c ≤ 'Z' then Char.ofNat (c.toNat + 32) else c

/-- Model of Python `str.lower()`. -/
def pyLower (s : String) : String := ⟨s.data.map pyLowerChar⟩

/-- A permit record: the six keys every dict literal in the source constructs. -/
structure Permit where
  permit_number : String
  issue_date : String
  address : String
  work_type : String
  contractor : String
  valuation : String
deriving Repr, DecidableEq

/-- The six field names, used to model the configured `csv_headers` list. -/
inductive Field where
  | permit_number | issue_date | address | work_type | contractor | valuation
deriving Repr, DecidableEq

/-- Look a field up in a permit record (what `csv.DictWriter` does per column). -/
def Permit.get (p : Permit) : Field → String
  | .permit_number => p.permit_number
  | .issue_date => p.issue_date
  | .address => p.address
  | .work_type => p.work_type
  | .contractor => p.contractor
  | .valuation => p.valuation

/-- The header cell written for a field. -/
def Field.name : Field → String
  | .permit_number => "permit_number"
  | .issue_date => "issue_date"
  | .address => "address"
  | .work_type => "work_type"
  | .contractor => "contractor"
  | .valuation => "valuation"

/-! ## Extractors -/

/-- The permit dict built by `parse_accela_results` from one row's `<td>`
texts (source lines 270-277, including the vacuous `len(cols) > 4/5` guards). -/
def mkAccelaPermit (cols : List String) : Permit :=
  { permit_number := pyStrip (cols.getD 0 "")
    issue_date := pyStrip (cols.getD 1 "")
    address := pyStrip (cols.getD 2 "")
    work_type := pyStrip (cols.getD 3 "")
    contractor := if cols.length > 4 then pyStrip (cols.getD 4 "") else ""
    valuation := if cols.length > 5 then pyStrip (cols.getD 5 "") else "" }

/-- `parse_accela_results` (source lines 260-280): take the first table, drop
its header row, and keep one record per row having at least 6 columns. -/
def parse_accela_results (table : Option (List (List String))) : List Permit :=
  match table with
  | none => []
  | some rows => ((rows.drop 1).filter fun cols => 6 ≤ cols.length).map mkAccelaPermit

/-- What the Nashville extractor sees in the rendered page: the first table (as
row-wise `<td>` texts) and the text contents of the block elements whose class
matches `permit|result|record`. -/
structure Soup where
  table : Option (List (List String))
  cards : List String
deriving Repr, DecidableEq

/-- The permit dict built by the table branch of `parse_nashville_results`
(source lines 294-301). -/
def mkNashTablePermit (cols : List String) : Permit :=
  { permit_number := pyStrip (cols.getD 0 "")
    issue_date := if cols.length > 1 then pyStrip (cols.getD 1 "") else ""
    address := if cols.length > 2 then pyStrip (cols.getD 2 "") else ""
    work_type := if cols.length > 3 then pyStrip (cols.getD 3 "") else ""
    contractor := if cols.length > 4 then pyStrip (cols.getD 4 "") else ""
    valuation := if cols.length > 5 then pyStrip (cols.getD 5 "") else "" }

/-- The table branch of `parse_nashville_results`: rows with at least 4 columns
become records (source lines 288-302). -/
def nashvilleTablePermits (table : Option (List (List String))) : List Permit :=
  match table with
  | none => []
  | some rows => ((rows.drop 1).filter fun cols => 4 ≤ cols.length).map mkNashTablePermit

/-- The permit dict built by the card/list fallback branch from the lines of an
element's text (source lines 314-321). -/
def mkCardPermit (lines : List String) : Permit :=
  { permit_number := pyStrip (lines.getD 0 "")
    issue_date := if lines.length > 1 then pyStrip (lines.getD 1 "") else ""
    address := if lines.length > 2 then pyStrip (lines.getD 2 "") else ""
    work_type := "Unknown"
    contractor := ""
    valuation := "" }

/-- The card/list fallback branch of `parse_nashville_results` (source lines
305-322): elements whose text splits into at least 3 lines become records. -/
def nashvilleCardPermits (cards : List String) : List Permit :=
  (cards.filter fun t => 3 ≤ (pySplit '\n' t).length).map
    fun t => mkCardPermit (pySplit '\n' t)

/-- `parse_nashville_results` (source lines 282-324): the fallback runs exactly
when the table branch appended no permits (`if not permits:`). -/
def parse_nashville_results (soup : Soup) : List Permit :=
  let permits := nashvilleTablePermits soup.table
  if permits.isEmpty then nashvilleCardPermits soup.cards else permits

/-- The permit dict built by `parse_csv_permits` from one line's comma-split
parts (source lines 335-342). -/
def mkCsvPermit (parts : List String) : Permit :=
  { permit_number := pyStrip (parts.getD 0 "")
    issue_date := pyStrip (parts.getD 1 "")
    address := pyStrip (parts.getD 2 "")
    work_type := pyStrip (parts.getD 3 "")
    contractor := pyStrip (parts.getD 4 "")
    valuation := pyStrip (parts.getD 5 "") }

/-- `parse_csv_permits` (source lines 326-345): drop the header line; keep one
record per non-blank line splitting into at least 6 comma-separated parts. -/
def parse_csv_permits (content : String) : List Permit :=
  ((pySplit '\n' content).drop 1).filterMap fun line =>
    if pyStrip line = "" then none
    else
      let parts := pySplit ',' line
      if 6 ≤ parts.length then some (mkCsvPermit parts) else none

/-! ## Date and number parsing -/

/-- Nonempty all-digit string. -/
def isDigitStr (s : String) : Bool :=
  !s.data.isEmpty && s.data.all Char.isDigit

/-- Gregorian leap year, as Python's `datetime` uses. -/
def isLeap (y : Nat) : Bool :=
  (y % 4 = 0 && y % 100 ≠ 0) || y % 400 = 0

/-- Days in a month, as `datetime.strptime` validates them. -/
def daysInMonth (y m : Nat) : Nat :=
  if m = 2 then (if isLeap y then 29 else 28)
  else if m = 4 || m = 6 || m = 9 || m = 11 then 30 else 31

/-- Model of `datetime.strptime(s, "%m/%d/%Y")`: `none` where Python raises
`ValueError`, otherwise the date encoded as `y*10000 + m*100 + d`, which
orders exactly as `datetime` values do.  CPython's `%m` and `%d` match 1-2
digits (values validated below), while `%Y` matches exactly 4 digits — a
two-digit year such as `"01/02/24"` raises `ValueError`. -/
def parseDateMDY (s : String) : Option Nat :=
  match pySplit '/' s with
  | [ms, ds, ys] =>
    if isDigitStr ms && isDigitStr ds && isDigitStr ys
        && ms.length ≤ 2 && ds.length ≤ 2 && ys.length = 4 then
      let m := digitsVal ms.data
      let d := digitsVal ds.data
      let y := digitsVal ys.data
      if 1 ≤ m && m ≤ 12 && 1 ≤ d && d ≤ daysInMonth y m && 1 ≤ y then
        some (y * 10000 + m * 100 + d)
      else none
    else none
  | _ => none

/-- `datetime.min` (year 1, month 1, day 1) in the date encoding. -/
def datetimeMinEnc : Nat := 1 * 10000 + 1 * 100 + 1

/-- Drop every character other than a digit or a dot:
`re.sub(r'[^\d.]', '', s)`. -/
def stripNonDigitDot (s : String) : String :=
  ⟨s.data.filter fun c => c.isDigit || c = '.'⟩

/-- Model of Python `float(s)` for a string made of digits and dots (the only
inputs it receives here, after `stripNonDigitDot`): defined exactly when the
string has at least one digit and at most one dot, `none` where Python raises
`ValueError`.  Valued in `ℚ`. -/
def parseFloatDD (s : String) : Option ℚ :=
  if s.data.any Char.isDigit && (s.data.filter fun c => c = '.').length ≤ 1 then
    match pySplit '.' s with
    | [w] => some (digitsVal w.data : ℚ)
    | [w, f] => some ((digitsVal w.data : ℚ) + (digitsVal f.data : ℚ) / (10 ^ f.length : ℚ))
    | _ => none
  else none

/-! ## Sorting

Python's `list.sort`/`sorted` is a stable sort; CPython computes every key
before moving any element, so a raising key function leaves the list
untouched.  Under a total preorder a stable sort is extensionally unique, so
`List.insertionSort` stands in for Timsort. -/

/-- Stable sort by a boolean comparator (`le a b` = "a may come before b"). -/
def pySort {α : Type} (le : α → α → Bool) (l : List α) : List α :=
  @List.insertionSort α (fun a b => le a b = true)
    (fun a b => instDecidableEqBool (le a b) true) l

/-! ## Sink -/

/-- The header row of a CSV: the configured header list itself. -/
def headerRow (headers : List Field) : List String := headers.map Field.name

/-- The row `csv.DictWriter` writes for a record: its fields in the configured
header order, regardless of the dict's internal key order. -/
def projRow (headers : List Field) (p : Permit) : List String := headers.map p.get

/-- The full contents of one written CSV file. -/
def csvRows (headers : List Field) (ps : List Permit) : List (List String) :=
  headerRow headers :: ps.map (projRow headers)

/-- The encoded parsed `issue_date` a record sorts by (meaningful under the
all-records-parse guard; the `getD` default is unreachable there). -/
def dateVal (p : Permit) : Nat := (parseDateMDY p.issue_date).getD 0

/-- The date-sorting step of `save_to_csv` (source lines 356-359):
`permits.sort(key=strptime(issue_date), reverse=True)` inside
`try/except ValueError`.  Returns the (possibly re-ordered) records and
whether the sort succeeded (`false` means the warning was logged and
extraction order kept for the whole set). -/
def sortPermitsByDate (ps : List Permit) : List Permit × Bool :=
  if ps.all fun p => (parseDateMDY p.issue_date).isSome then
    (pySort (fun a b => decide (dateVal b ≤ dateVal a)) ps, true)
  else (ps, false)

/-- The `date` sort key of `generate_sorted_versions` (source line 374):
`strptime(x['issue_date'], "%m/%d/%Y") if x['issue_date'] else datetime.min`.
`none` where the unguarded `strptime` raises. -/
def dateKeyGS (p : Permit) : Option Nat :=
  if p.issue_date = "" then some datetimeMinEnc else parseDateMDY p.issue_date

/-- The `valuation` sort key (source line 375):
`float(re.sub(r'[^\d.]', '', x['valuation'])) if x['valuation'] else 0`.
`none` where `float` raises. -/
def valKeyGS (p : Permit) : Option ℚ :=
  if p.valuation = "" then some 0 else parseFloatDD (stripNonDigitDot p.valuation)

/-- `sorted(permits, key=k, reverse=True)` for an optional `Nat`-valued key:
all keys are computed first, so one failing key aborts with no output. -/
def sortedByNatKeyDesc (k : Permit → Option Nat) (ps : List Permit) :
    Option (List Permit) :=
  if ps.all fun p => (k p).isSome then
    some (pySort (fun a b => (k b).getD 0 ≤ (k a).getD 0) ps)
  else none

/-- `sorted(permits, key=k, reverse=True)` for an optional `ℚ`-valued key. -/
def sortedByRatKeyDesc (k : Permit → Option ℚ) (ps : List Permit) :
    Option (List Permit) :=
  if ps.all fun p => (k p).isSome then
    some (pySort (fun a b => decide ((k b).getD 0 ≤ (k a).getD 0)) ps)
  else none

/-- Lexicographic code-point comparison of character lists: Python `str` `<=`. -/
def charListLe : List Char → List Char → Bool
  | [], _ => true
  | _ :: _, [] => false
  | a :: as, b :: bs => if a < b then true else if b < a then false else charListLe as bs

/-- `sorted(permits, key=lambda x: x[field].lower())`, ascending. -/
def sortedByStrKeyAsc (k : Permit → String) (ps : List Permit) : List Permit :=
  pySort (fun a b => charListLe (k a).data (k b).data) ps

/-- The five sort keys of `generate_sorted_versions`, in the dict's insertion
(= iteration) order (source lines 373-379). -/
def sortKeyNames : List String := ["date", "valuation", "address", "contractor", "work_type"]

/-- The record order of one sorted variant; `none` when computing that
variant's keys raises an uncaught `ValueError`. -/
def variantFor (name : String) (ps : List Permit) : Option (List Permit) :=
  if name = "date" then sortedByNatKeyDesc dateKeyGS ps
  else if name = "valuation" then sortedByRatKeyDesc valKeyGS ps
  else if name = "address" then some (sortedByStrKeyAsc (fun p => pyLower p.address) ps)
  else if name = "contractor" then some (sortedByStrKeyAsc (fun p => pyLower p.contractor) ps)
  else some (sortedByStrKeyAsc (fun p => pyLower p.work_type) ps)

/-- Process the sort keys in order, writing one file per key; a raising key
aborts the loop (and the whole run): the files already written stay written,
the flag records whether the loop completed. -/
def gsvGo (headers : List Field) (ps : List Permit) :
    List String → List (String × List (List String)) × Bool
  | [] => ([], true)
  | name :: rest =>
    match variantFor name ps with
    | none => ([], false)
    | some sortedPs =>
      let r := gsvGo headers ps rest
      ((name, csvRows headers sortedPs) :: r.1, r.2)

/-- `generate_sorted_versions` (source lines 371-388): the written sorted
variants (file name key, rows) and whether the loop completed without an
uncaught exception. -/
def generate_sorted_versions (headers : List Field) (ps : List Permit) :
    List (String × List (List String)) × Bool :=
  gsvGo headers ps sortKeyNames

/-- Outcome of a `save_to_csv` call that wrote the primary file. -/
structure SaveResult where
  /-- Rows of the primary CSV file. -/
  primary : List (List String)
  /-- The sorted-variant files actually written (empty when not requested). -/
  sortedFiles : List (String × List (List String))
  /-- `false` iff the date sort failed and the warning was logged. -/
  dateSortOk : Bool
  /-- `false` iff `generate_sorted_versions` raised before finishing. -/
  sortedOk : Bool
deriving Repr, DecidableEq

/-- `save_to_csv` (source lines 347-369): no-op (`none`) on an empty record
list; otherwise best-effort date sort, primary write, and — only when
`generate_sorted` — the sorted variants (over the in-place-sorted list). -/
def save_to_csv (headers : List Field) (ps : List Permit) (generate_sorted : Bool) :
    Option SaveResult :=
  if ps.isEmpty then none
  else
    let sorted := sortPermitsByDate ps
    let prim := csvRows headers sorted.1
    if generate_sorted then
      let gs := generate_sorted_versions headers sorted.1
      some ⟨prim, gs.1, sorted.2, gs.2⟩
    else some ⟨prim, [], sorted.2, true⟩

/-! ## Orchestrator

The per-source external world is abstracted to what the code observes:
whether `get_driver()` succeeds, and — when navigation inside the `try`
succeeds — the page the extractor receives (`none` models any exception
raised inside the `try`: timeout, element-not-found, ...). -/

/-- The external behaviour one source's scrape encounters. -/
structure SourceEnv where
  /-- Does `self.get_driver()` (called before the `try`) succeed? -/
  driverOk : Bool
  /-- `some soup`: navigation succeeds and yields this page; `none`: some step
  inside the `try` raises. -/
  nav : Option Soup
deriving Repr, DecidableEq

/-- What one completed `scrape_<county>` call did. -/
structure SourceOutcome where
  /-- `save_to_csv`'s outcome; `none` when no file was written (pipeline
  failure, or an empty record list). -/
  files : Option SaveResult
  /-- Was an exception caught and logged at the source boundary? -/
  caught : Bool
  /-- Did `driver.quit()` (the `finally` block) run? -/
  released : Bool
deriving Repr, DecidableEq

/-- One `scrape_<county>` method (source lines 81-124 and mirrors):
`get_driver()` runs before the `try`, so its failure propagates
(`Except.error`); any failure inside the `try` is caught, logged and the
`finally` still releases the driver.  The scrape methods call `save_to_csv`
with its default `generate_sorted=False`; the flag actually passed is a
parameter here so that theorems can speak about it. -/
def scrapeSource (parse : Soup → List Permit) (headers : List Field)
    (env : SourceEnv) (generate_sorted : Bool) : Except Unit SourceOutcome :=
  if !env.driverOk then Except.error ()
  else
    match env.nav with
    | none => Except.ok ⟨none, true, true⟩
    | some soup => Except.ok ⟨save_to_csv headers (parse soup) generate_sorted, false, true⟩

/-- The external behaviour of one full run, per county. -/
structure RunEnv where
  bexar : SourceEnv
  hamilton : SourceEnv
  davidson : SourceEnv
  travis : SourceEnv
deriving Repr, DecidableEq

/-- The Accela-family scrape methods parse the page's first table. -/
def parseAccelaSoup (s : Soup) : List Permit := parse_accela_results s.table

set_option linter.unusedVariables false in

/-- `run_all` (source lines 390-405): the four scrapes in fixed order.  Its
`generate_sorted` parameter is never forwarded — each `scrape_<county>` calls
`save_to_csv(permits, slug)` with the default `generate_sorted=False` — which
is exactly what the theorems below record; the unused-variable linter is
silenced because the unused flag is the point.  An exception escaping a scrape
method (driver creation failure) propagates to `run_all`'s caller. -/
def run_all (headers : List Field) (env : RunEnv) (generate_sorted : Bool) :
    Except Unit (List SourceOutcome) :=
  match scrapeSource parseAccelaSoup headers env.bexar false with
  | .error e => .error e
  | .ok b =>
    match scrapeSource parseAccelaSoup headers env.hamilton false with
    | .error e => .error e
    | .ok h =>
      match scrapeSource parse_nashville_results headers env.davidson false with
      | .error e => .error e
      | .ok d =>
        match scrapeSource parseAccelaSoup headers env.travis false with
        | .error e => .error e
        | .ok t => .ok [b, h, d, t]

/-! ## Stripped-string predicate (for the extractor invariants) -/

/-- A string with no leading and no trailing whitespace — the shape
`str.strip()` guarantees. -/
def noEdgeWS (s : String) : Bool :=
  (s.data.head?.all fun c => !isWS c) && (s.data.reverse.head?.all fun c => !isWS c)

/-- All six fields of a record are whitespace-stripped strings. -/
def strippedPermit (p : Permit) : Prop :=
  (noEdgeWS p.permit_number && noEdgeWS p.issue_date && noEdgeWS p.address
    && noEdgeWS p.work_type && noEdgeWS p.contractor && noEdgeWS p.valuation) = true

/-! ## Helper lemmas -/

theorem head?_dropWhile_not (p : Char → Bool) (l : List Char) :
    ((l.dropWhile p).head?.all fun c => !p c) = true := by
  induction l with
  | nil => rfl
  | cons c t ih =>
    by_cases h : p c
    · simpa [List.dropWhile_cons, h] using ih
    · simp [List.dropWhile_cons, h]

theorem reverse_dropWhile_head (p : Char → Bool) (r : List Char)
    (h : (r.head?.all fun c => !p c) = true) :
    ((r.reverse.dropWhile p).reverse.head?.all fun c => !p c) = true := by
  cases r with
  | nil => rfl
  | cons a t =>
    have ha : p a = false := by simpa using h
    rw [List.reverse_cons, List.dropWhile_append]
    by_cases he : (t.reverse.dropWhile p).isEmpty
    · simp [he, List.dropWhile_cons, ha]
    · simp [he, ha]

theorem noEdgeWS_pyStrip (s : String) : noEdgeWS (pyStrip s) = true := by
  have h1 := head?_dropWhile_not isWS s.data
  have h2 := reverse_dropWhile_head isWS (s.data.dropWhile isWS) h1
  have h3 := head?_dropWhile_not isWS (s.data.dropWhile isWS).reverse
  unfold noEdgeWS pyStrip stripChars
  rw [Bool.and_eq_true]
  exact ⟨h2, by simpa using h3⟩

theorem strippedPermit_mkAccelaPermit (cols : List String) :
    strippedPermit (mkAccelaPermit cols) := by
  simp only [strippedPermit, mkAccelaPermit, Bool.and_eq_true]
  refine ⟨⟨⟨⟨⟨?_, ?_⟩, ?_⟩, ?_⟩, ?_⟩, ?_⟩
  all_goals try split
  all_goals first | exact noEdgeWS_pyStrip _ | decide

theorem strippedPermit_mkNashTablePermit (cols : List String) :
    strippedPermit (mkNashTablePermit cols) := by
  simp only [strippedPermit, mkNashTablePermit, Bool.and_eq_true]
  refine ⟨⟨⟨⟨⟨?_, ?_⟩, ?_⟩, ?_⟩, ?_⟩, ?_⟩
  all_goals try split
  all_goals first | exact noEdgeWS_pyStrip _ | decide

theorem strippedPermit_mkCardPermit (lines : List String) :
    strippedPermit (mkCardPermit lines) := by
  simp only [strippedPermit, mkCardPermit, Bool.and_eq_true]
  refine ⟨⟨⟨⟨⟨?_, ?_⟩, ?_⟩, ?_⟩, ?_⟩, ?_⟩
  all_goals try split
  all_goals first | exact noEdgeWS_pyStrip _ | decide

theorem strippedPermit_mkCsvPermit (parts : List String) :
    strippedPermit (mkCsvPermit parts) := by
  simp only [strippedPermit, mkCsvPermit, Bool.and_eq_true]
  exact ⟨⟨⟨⟨⟨noEdgeWS_pyStrip _, noEdgeWS_pyStrip _⟩, noEdgeWS_pyStrip _⟩,
    noEdgeWS_pyStrip _⟩, noEdgeWS_pyStrip _⟩, noEdgeWS_pyStrip _⟩

theorem pySort_perm {α : Type} (le : α → α → Bool) (l : List α) :
    (pySort le l).Perm l :=
  @List.perm_insertionSort α (fun a b => le a b = true)
    (fun a b => instDecidableEqBool (le a b) true) l

theorem pySort_sorted {α : Type} (le : α → α → Bool)
    (htot : ∀ a b, le a b = true ∨ le b a = true)
    (htrans : ∀ a b c, le a b = true → le b c = true → le a c = true)
    (l : List α) : List.Pairwise (fun a b => le a b = true) (pySort le l) := by
  haveI : IsTotal α (fun a b => le a b = true) := ⟨htot⟩
  haveI : IsTrans α (fun a b => le a b = true) := ⟨htrans⟩
  exact @List.sorted_insertionSort α (fun a b => le a b = true)
    (fun a b => instDecidableEqBool (le a b) true) _ _ l

theorem sortPermitsByDate_perm (ps : List Permit) :
    (sortPermitsByDate ps).1.Perm ps := by
  unfold sortPermitsByDate
  split
  · exact pySort_perm _ _
  · exact List.Perm.refl _

theorem sortedByNatKeyDesc_perm (k : Permit → Option Nat) (ps qs : List Permit)
    (h : sortedByNatKeyDesc k ps = some qs) : qs.Perm ps := by
  unfold sortedByNatKeyDesc at h
  split at h
  · cases h; exact pySort_perm _ _
  · cases h

theorem sortedByRatKeyDesc_perm (k : Permit → Option ℚ) (ps qs : List Permit)
    (h : sortedByRatKeyDesc k ps = some qs) : qs.Perm ps := by
  unfold sortedByRatKeyDesc at h
  split at h
  · cases h; exact pySort_perm _ _
  · cases h

theorem variantFor_perm (name : String) (ps qs : List Permit)
    (h : variantFor name ps = some qs) : qs.Perm ps := by
  unfold variantFor at h
  split_ifs at h
  · exact sortedByNatKeyDesc_perm _ _ _ h
  · exact sortedByRatKeyDesc_perm _ _ _ h
  · cases h; exact pySort_perm _ _
  · cases h; exact pySort_perm _ _
  · cases h; exact pySort_perm _ _

theorem gsvGo_mem (hs : List Field) (ps : List Permit) (names : List String)
    (f : String × List (List String)) (h : f ∈ (gsvGo hs ps names).1) :
    ∃ qs, qs.Perm ps ∧ f.2 = csvRows hs qs := by
  induction names with
  | nil => simp [gsvGo] at h
  | cons n rest ih =>
    rw [gsvGo] at h
    cases hv : variantFor n ps with
    | none => rw [hv] at h; simp at h
    | some qs =>
      rw [hv] at h
      simp only [List.mem_cons] at h
      rcases h with h | h
      · exact ⟨qs, variantFor_perm _ _ _ hv, by rw [h]⟩
      · exact ih h

theorem save_false_sortedFiles (hs : List Field) (ps : List Permit) (r : SaveResult)
    (h : save_to_csv hs ps false = some r) : r.sortedFiles = [] := by
  unfold save_to_csv at h
  split at h
  · cases h
  · simp only [Bool.false_eq_true, if_false, Option.some.injEq] at h
    rw [← h]

theorem scrapeSource_ok (parse : Soup → List Permit) (hs : List Field)
    (env : SourceEnv) (g : Bool) (h : env.driverOk = true) :
    scrapeSource parse hs env g
      = Except.ok (match env.nav with
          | none => ⟨none, true, true⟩
          | some soup => ⟨save_to_csv hs (parse soup) g, false, true⟩) := by
  unfold scrapeSource
  rw [h]
  cases env.nav <;> rfl

theorem scrapeSource_error (parse : Soup → List Permit) (hs : List Field)
    (env : SourceEnv) (g : Bool) (h : env.driverOk = false) :
    scrapeSource parse hs env g = Except.error () := by
  unfold scrapeSource
  rw [h]
  rfl

theorem scrapeSource_false_no_sorted (parse : Soup → List Permit) (hs : List Field)
    (env : SourceEnv) (o : SourceOutcome)
    (h : scrapeSource parse hs env false = Except.ok o)
    (r : SaveResult) (hr : o.files = some r) : r.sortedFiles = [] := by
  unfold scrapeSource at h
  split at h
  · cases h
  · cases henv : env.nav with
    | none =>
      rw [henv] at h
      cases h
      cases hr
    | some s =>
      rw [henv] at h
      cases h
      exact save_false_sortedFiles hs (parse s) r hr

theorem run_all_ok (hs : List Field) (env : RunEnv)
    (h1 : env.bexar.driverOk = true) (h2 : env.hamilton.driverOk = true)
    (h3 : env.davidson.driverOk = true) (h4 : env.travis.driverOk = true) (g : Bool) :
    run_all hs env g = Except.ok [
      (match env.bexar.nav with
        | none => ⟨none, true, true⟩
        | some s => ⟨save_to_csv hs (parseAccelaSoup s) false, false, true⟩),
      (match env.hamilton.nav with
        | none => ⟨none, true, true⟩
        | some s => ⟨save_to_csv hs (parseAccelaSoup s) false, false, true⟩),
      (match env.davidson.nav with
        | none => ⟨none, true, true⟩
        | some s => ⟨save_to_csv hs (parse_nashville_results s) false, false, true⟩),
      (match env.travis.nav with
        | none => ⟨none, true, true⟩
        | some s => ⟨save_to_csv hs (parseAccelaSoup s) false, false, true⟩)] := by
  unfold run_all
  rw [scrapeSource_ok _ _ _ _ h1, scrapeSource_ok _ _ _ _ h2,
    scrapeSource_ok _ _ _ _ h3, scrapeSource_ok _ _ _ _ h4]

/-! ## Claim theorems -/

/-- C7: for empty or absent markup every extractor returns an empty record
sequence (without raising), and on an empty record sequence the sink performs
no file write at all — not even a header-only file. -/
theorem spec_C7_empty_markup_empty_sink :
    ∀ (headers : List Field) (g : Bool),
      parse_accela_results none = []
      ∧ parse_nashville_results ⟨none, []⟩ = []
      ∧ parse_csv_permits "" = []
      ∧ save_to_csv headers [] g = none := by
  intro headers g
  exact ⟨rfl, rfl, rfl, rfl⟩

/-- C2 counterexample: a table whose single data row has exactly 4 columns —
which the claim says yields exactly one record — yields no record, because
`parse_accela_results` keeps only rows with at least 6 `<td>` columns
(`if len(cols) >= 6`, source line 269). -/
theorem spec_C2_counterexample_four_columns :
    parse_accela_results
        (some [["Permit", "Date", "Address", "Type"],
               ["P1", "01/02/2024", "3 Elm St", "Roof"]])
      = [] := by decide

/-- C2 (amended): the generic table extractor produces exactly one record per
data row (header row excluded) having at least 6 columns, with positional
mapping 0→permit_number, 1→issue_date, 2→address, 3→work_type, 4→contractor,
5→valuation; rows with fewer than 6 columns are silently excluded, and no
error is ever raised (the extractor is a total function). -/
theorem spec_C2_amended_six_column_rows :
    ∀ rows : List (List String),
      parse_accela_results (some rows)
        = ((rows.drop 1).filter fun cols => 6 ≤ cols.length).map (fun cols =>
            { permit_number := pyStrip (cols.getD 0 "")
              issue_date := pyStrip (cols.getD 1 "")
              address := pyStrip (cols.getD 2 "")
              work_type := pyStrip (cols.getD 3 "")
              contractor := pyStrip (cols.getD 4 "")
              valuation := pyStrip (cols.getD 5 "") })
      ∧ ((∀ cols ∈ rows.drop 1, 6 ≤ cols.length) →
          (parse_accela_results (some rows)).length = (rows.drop 1).length) := by
  intro rows
  constructor
  · unfold parse_accela_results
    apply List.map_congr_left
    intro cols hc
    have h6 : 6 ≤ cols.length := of_decide_eq_true (List.mem_filter.mp hc).2
    unfold mkAccelaPermit
    rw [if_pos (show cols.length > 4 by omega), if_pos (show cols.length > 5 by omega)]
  · intro hall
    have hdef : parse_accela_results (some rows)
        = ((rows.drop 1).filter fun cols => 6 ≤ cols.length).map mkAccelaPermit := rfl
    rw [hdef, List.filter_eq_self.mpr fun a ha => decide_eq_true (hall a ha)]
    exact List.length_map _ _

/-- Witness for C2 (amended), at a table with one header row and one 6-column
data row. -/
theorem spec_C2_amended_six_column_rows_witness :
    (parse_accela_results
        (some [["c0", "c1", "c2", "c3", "c4", "c5"],
               ["P1", "01/02/2024", "3 Elm St", "Roof", "ACME", "$5,000"]])).length
      = ([["c0", "c1", "c2", "c3", "c4", "c5"],
          ["P1", "01/02/2024", "3 Elm St", "Roof", "ACME", "$5,000"]].drop 1).length :=
  (spec_C2_amended_six_column_rows
    [["c0", "c1", "c2", "c3", "c4", "c5"],
     ["P1", "01/02/2024", "3 Elm St", "Roof", "ACME", "$5,000"]]).2 (by decide)

/-- C5 counterexample: a non-empty valuation whose digit/dot-stripped form is
not a parseable number (here `"N/A"`, stripped to `""`) does not map to 0: the
key raises `ValueError` (modelled as `none`), and the valuation-sorted variant
cannot be produced for a list containing it. -/
theorem spec_C5_counterexample_unparseable_valuation :
    valKeyGS ⟨"P1", "", "", "", "", "N/A"⟩ = none
    ∧ sortedByRatKeyDesc valKeyGS [⟨"P1", "", "", "", "", "N/A"⟩] = none := by
  decide

unseal Rat.add Rat.ofScientific Rat.mul Rat.inv in
/-- C5 (amended): the valuation key strips every character other than digits
and dots and converts the rest to a number; a missing (empty) valuation maps
to 0, while a non-empty valuation whose stripped form is unparseable raises
(it does not map to 0).  On the claim's inputs: `"$125,000"` ↦ 125000.0,
`""` ↦ 0, `"75000.50"` ↦ 75000.5, and the valuation-sorted variant orders
them descending as 125000.0, 75000.5, 0. -/
theorem spec_C5_amended_valuation_key :
    ∀ a b c d e : String,
      valKeyGS ⟨a, b, c, d, e, ""⟩ = some 0
      ∧ valKeyGS ⟨"A", "", "", "", "", "$125,000"⟩ = some 125000
      ∧ valKeyGS ⟨"C", "", "", "", "", "75000.50"⟩ = some (75000.5 : ℚ)
      ∧ sortedByRatKeyDesc valKeyGS
            [⟨"A", "", "", "", "", "$125,000"⟩, ⟨"B", "", "", "", "", ""⟩,
             ⟨"C", "", "", "", "", "75000.50"⟩]
          = some [⟨"A", "", "", "", "", "$125,000"⟩, ⟨"C", "", "", "", "", "75000.50"⟩,
              ⟨"B", "", "", "", "", ""⟩] := by
  intro a b c d e
  refine ⟨?_, by decide, by decide, by decide⟩
  simp [valKeyGS]

/-- C6 counterexample: a page that does contain a table (so the claim says the
card fallback must not be used) whose only data row has 3 columns: the table
branch yields no records, so the fallback runs and emits the card-derived
record — the fallback is governed by "table branch produced no records", not
by "no table is found". -/
theorem spec_C6_counterexample_table_present_fallback_used :
    (some [["h"], ["a", "b", "c"]] : Option (List (List String))).isSome = true
    ∧ nashvilleTablePermits (some [["h"], ["a", "b", "c"]]) = []
    ∧ parse_nashville_results ⟨some [["h"], ["a", "b", "c"]], ["P1\nD1\nA1"]⟩
        = [⟨"P1", "D1", "A1", "Unknown", "", ""⟩] := by
  decide

/-- C6 (amended): the card/list fallback is used exactly when the table branch
produced no records (no table at all, or a table none of whose data rows has
at least 4 columns); when it runs, every matched block element whose text
splits into at least 3 lines emits a record with line 0 as permit_number,
line 1 as issue_date, line 2 as address, work_type `"Unknown"`, and empty
contractor and valuation, and every element with fewer than 3 lines is
skipped. -/
theorem spec_C6_amended_fallback_condition :
    ∀ (table : Option (List (List String))) (cards : List String),
      (nashvilleTablePermits table ≠ [] →
        parse_nashville_results ⟨table, cards⟩ = nashvilleTablePermits table)
      ∧ (nashvilleTablePermits table = [] →
          parse_nashville_results ⟨table, cards⟩
            = (cards.filter fun t => 3 ≤ (pySplit '\n' t).length).map (fun t =>
                { permit_number := pyStrip ((pySplit '\n' t).getD 0 "")
                  issue_date := pyStrip ((pySplit '\n' t).getD 1 "")
                  address := pyStrip ((pySplit '\n' t).getD 2 "")
                  work_type := "Unknown"
                  contractor := ""
                  valuation := "" })) := by
  intro table cards
  constructor
  · intro hne
    simp only [parse_nashville_results]
    rw [if_neg (by simpa [List.isEmpty_iff] using hne)]
  · intro he
    simp only [parse_nashville_results]
    rw [if_pos (by simpa [List.isEmpty_iff] using he)]
    unfold nashvilleCardPermits
    apply List.map_congr_left
    intro t ht
    have h3 : 3 ≤ (pySplit '\n' t).length := of_decide_eq_true (List.mem_filter.mp ht).2
    unfold mkCardPermit
    rw [if_pos (show (pySplit '\n' t).length > 1 by omega),
      if_pos (show (pySplit '\n' t).length > 2 by omega)]

/-- Witness for C6 (amended): a page with no table and one 3-line card. -/
theorem spec_C6_amended_fallback_condition_witness :
    parse_nashville_results ⟨none, ["P1\nD1\nA1"]⟩
      = (["P1\nD1\nA1"].filter fun t => 3 ≤ (pySplit '\n' t).length).map (fun t =>
          { permit_number := pyStrip ((pySplit '\n' t).getD 0 "")
            issue_date := pyStrip ((pySplit '\n' t).getD 1 "")
            address := pyStrip ((pySplit '\n' t).getD 2 "")
            work_type := "Unknown"
            contractor := ""
            valuation := "" }) :=
  (spec_C6_amended_fallback_condition none ["P1\nD1\nA1"]).2 rfl

/-- C4: on a non-empty record list with at least one unparseable `issue_date`
the primary write still succeeds, the rows keep the extraction order of the
whole set (no partial sort) and the warning is recorded; when every
`issue_date` parses, the primary rows are in descending order of the parsed
dates. -/
theorem spec_C4_primary_date_sort :
    ∀ (headers : List Field) (ps : List Permit) (g : Bool), ps ≠ [] →
      ((∃ p ∈ ps, parseDateMDY p.issue_date = none) →
        ∃ r, save_to_csv headers ps g = some r
          ∧ r.primary = csvRows headers ps ∧ r.dateSortOk = false)
      ∧ ((∀ p ∈ ps, (parseDateMDY p.issue_date).isSome = true) →
        ∃ r qs, save_to_csv headers ps g = some r
          ∧ qs.Perm ps
          ∧ List.Pairwise (fun a b => dateVal b ≤ dateVal a) qs
          ∧ r.primary = csvRows headers qs ∧ r.dateSortOk = true) := by
  intro headers ps g hne
  have hemp : ps.isEmpty = false := by simpa [List.isEmpty_iff] using hne
  constructor
  · rintro ⟨p, hp, hpn⟩
    have hall : (ps.all fun q => (parseDateMDY q.issue_date).isSome) = false :=
      List.all_eq_false.mpr ⟨p, hp, by simp [hpn]⟩
    have hsort : sortPermitsByDate ps = (ps, false) := by
      simp [sortPermitsByDate, hall]
    cases g with
    | false => exact ⟨⟨csvRows headers ps, [], false, true⟩,
        by simp [save_to_csv, hemp, hsort], rfl, rfl⟩
    | true => exact ⟨⟨csvRows headers ps, (generate_sorted_versions headers ps).1, false,
          (generate_sorted_versions headers ps).2⟩,
        by simp [save_to_csv, hemp, hsort], rfl, rfl⟩
  · intro hall
    have hallb : (ps.all fun q => (parseDateMDY q.issue_date).isSome) = true :=
      List.all_eq_true.mpr hall
    have hsort : sortPermitsByDate ps
        = (pySort (fun a b => decide (dateVal b ≤ dateVal a)) ps, true) := by
      simp [sortPermitsByDate, hallb]
    have hperm : (pySort (fun a b => decide (dateVal b ≤ dateVal a)) ps).Perm ps :=
      pySort_perm _ _
    have hsorted : List.Pairwise (fun a b : Permit => dateVal b ≤ dateVal a)
        (pySort (fun a b => decide (dateVal b ≤ dateVal a)) ps) := by
      have ht := pySort_sorted (fun a b : Permit => decide (dateVal b ≤ dateVal a))
        (fun a b => by
          rcases Nat.le_total (dateVal b) (dateVal a) with h | h
          · exact Or.inl (decide_eq_true h)
          · exact Or.inr (decide_eq_true h))
        (fun a b c hab hbc =>
          decide_eq_true (Nat.le_trans (of_decide_eq_true hbc) (of_decide_eq_true hab)))
        ps
      exact ht.imp fun h => of_decide_eq_true h
    cases g with
    | false => exact ⟨⟨csvRows headers (pySort (fun a b => decide (dateVal b ≤ dateVal a)) ps),
          [], true, true⟩, pySort (fun a b => decide (dateVal b ≤ dateVal a)) ps,
        by simp [save_to_csv, hemp, hsort], hperm, hsorted, rfl, rfl⟩
    | true => exact ⟨⟨csvRows headers (pySort (fun a b => decide (dateVal b ≤ dateVal a)) ps),
          (generate_sorted_versions headers
            (pySort (fun a b => decide (dateVal b ≤ dateVal a)) ps)).1, true,
          (generate_sorted_versions headers
            (pySort (fun a b => decide (dateVal b ≤ dateVal a)) ps)).2⟩,
        pySort (fun a b => decide (dateVal b ≤ dateVal a)) ps,
        by simp [save_to_csv, hemp, hsort], hperm, hsorted, rfl, rfl⟩

/-- Witness for C4, at a two-record list whose first record's `issue_date`
does not parse. -/
theorem spec_C4_primary_date_sort_witness :
    ([⟨"P1", "2024-01-02", "a", "w", "c", "v"⟩, ⟨"P2", "01/05/2024", "b", "x", "d", "u"⟩]
        : List Permit) ≠ []
    ∧ (∃ p ∈ ([⟨"P1", "2024-01-02", "a", "w", "c", "v"⟩,
          ⟨"P2", "01/05/2024", "b", "x", "d", "u"⟩] : List Permit),
        parseDateMDY p.issue_date = none)
    ∧ ∃ r, save_to_csv [Field.permit_number]
          [⟨"P1", "2024-01-02", "a", "w", "c", "v"⟩, ⟨"P2", "01/05/2024", "b", "x", "d", "u"⟩]
          false = some r
        ∧ r.primary = csvRows [Field.permit_number]
            [⟨"P1", "2024-01-02", "a", "w", "c", "v"⟩, ⟨"P2", "01/05/2024", "b", "x", "d", "u"⟩]
        ∧ r.dateSortOk = false :=
  ⟨by decide, by decide,
    (spec_C4_primary_date_sort [Field.permit_number]
      [⟨"P1", "2024-01-02", "a", "w", "c", "v"⟩, ⟨"P2", "01/05/2024", "b", "x", "d", "u"⟩]
      false (by decide)).1 (by decide)⟩

/-- C8: whenever the sink writes, every written CSV — the primary file and
each sorted variant — consists of the configured header row followed by the
input records re-ordered but with all six field values unchanged, each row
being exactly the record's fields in configured-header order. -/
theorem spec_C8_sink_preserves_records :
    ∀ (headers : List Field) (ps : List Permit) (g : Bool) (r : SaveResult),
      save_to_csv headers ps g = some r →
      (∃ qs, qs.Perm ps ∧ r.primary = csvRows headers qs)
      ∧ ∀ f ∈ r.sortedFiles, ∃ qs, qs.Perm ps ∧ f.2 = csvRows headers qs := by
  intro headers ps g r h
  unfold save_to_csv at h
  split at h
  · cases h
  · split at h
    · cases h
      constructor
      · exact ⟨(sortPermitsByDate ps).1, sortPermitsByDate_perm ps, rfl⟩
      · intro f hf
        obtain ⟨qs, hq, he⟩ :=
          gsvGo_mem headers (sortPermitsByDate ps).1 sortKeyNames f hf
        exact ⟨qs, hq.trans (sortPermitsByDate_perm ps), he⟩
    · cases h
      constructor
      · exact ⟨(sortPermitsByDate ps).1, sortPermitsByDate_perm ps, rfl⟩
      · intro f hf
        cases hf

/-- Witness for C8, at a one-record list with sorted variants requested. -/
theorem spec_C8_sink_preserves_records_witness :
    (∃ qs, qs.Perm [(⟨"P1", "01/02/2024", "3 Elm", "Roof", "ACME", ""⟩ : Permit)]
      ∧ (⟨[["permit_number", "valuation"], ["P1", ""]],
          [("date", [["permit_number", "valuation"], ["P1", ""]]),
           ("valuation", [["permit_number", "valuation"], ["P1", ""]]),
           ("address", [["permit_number", "valuation"], ["P1", ""]]),
           ("contractor", [["permit_number", "valuation"], ["P1", ""]]),
           ("work_type", [["permit_number", "valuation"], ["P1", ""]])],
          true, true⟩ : SaveResult).primary
          = csvRows [Field.permit_number, Field.valuation] qs)
    ∧ ∀ f ∈ (⟨[["permit_number", "valuation"], ["P1", ""]],
          [("date", [["permit_number", "valuation"], ["P1", ""]]),
           ("valuation", [["permit_number", "valuation"], ["P1", ""]]),
           ("address", [["permit_number", "valuation"], ["P1", ""]]),
           ("contractor", [["permit_number", "valuation"], ["P1", ""]]),
           ("work_type", [["permit_number", "valuation"], ["P1", ""]])],
          true, true⟩ : SaveResult).sortedFiles,
        ∃ qs, qs.Perm [(⟨"P1", "01/02/2024", "3 Elm", "Roof", "ACME", ""⟩ : Permit)]
          ∧ f.2 = csvRows [Field.permit_number, Field.valuation] qs :=
  spec_C8_sink_preserves_records [Field.permit_number, Field.valuation]
    [⟨"P1", "01/02/2024", "3 Elm", "Roof", "ACME", ""⟩] true
    ⟨[["permit_number", "valuation"], ["P1", ""]],
      [("date", [["permit_number", "valuation"], ["P1", ""]]),
       ("valuation", [["permit_number", "valuation"], ["P1", ""]]),
       ("address", [["permit_number", "valuation"], ["P1", ""]]),
       ("contractor", [["permit_number", "valuation"], ["P1", ""]]),
       ("work_type", [["permit_number", "valuation"], ["P1", ""]])],
      true, true⟩ (by decide)

/-- C9: the `date` key of `generate_sorted_versions` maps an empty
`issue_date` to `datetime.min` but applies strict `MM/DD/YYYY` parsing
unguarded to every non-empty one, so a record list containing a non-empty
unparseable `issue_date` makes `generate_sorted_versions` raise an uncaught
`ValueError`: no sorted-variant file is produced, even though the primary
file was already written (in extraction order) by `save_to_csv`. -/
theorem spec_C9_generate_sorted_uncaught_valueerror :
    ∀ (headers : List Field) (ps : List Permit) (p0 : Permit),
      p0.issue_date = "" →
      (∃ p ∈ ps, p.issue_date ≠ "" ∧ parseDateMDY p.issue_date = none) →
      dateKeyGS p0 = some datetimeMinEnc
      ∧ ∃ r, save_to_csv headers ps true = some r
          ∧ r.primary = csvRows headers ps
          ∧ r.sortedFiles = [] ∧ r.sortedOk = false := by
  intro headers ps p0 hp0 hbad
  obtain ⟨p, hp, hne, hnone⟩ := hbad
  constructor
  · simp [dateKeyGS, hp0]
  · have hemp : ps.isEmpty = false := by
      simp [List.isEmpty_eq_false]
      exact List.ne_nil_of_mem hp
    have hall : (ps.all fun q => (parseDateMDY q.issue_date).isSome) = false :=
      List.all_eq_false.mpr ⟨p, hp, by simp [hnone]⟩
    have hsort : sortPermitsByDate ps = (ps, false) := by
      simp [sortPermitsByDate, hall]
    have hkey : dateKeyGS p = none := by
      simp [dateKeyGS, hne, hnone]
    have hallgs : (ps.all fun q => (dateKeyGS q).isSome) = false :=
      List.all_eq_false.mpr ⟨p, hp, by simp [hkey]⟩
    have hdate : variantFor "date" ps = none := by
      simp [variantFor, sortedByNatKeyDesc, hallgs]
    have hgsv : generate_sorted_versions headers ps = ([], false) := by
      simp [generate_sorted_versions, sortKeyNames, gsvGo, hdate]
    exact ⟨⟨csvRows headers ps, [], false, false⟩,
      by simp [save_to_csv, hemp, hsort, hgsv], rfl, rfl, rfl⟩

/-- Witness for C9, at a one-record list whose `issue_date` is `"2024-01-02"`
(non-empty, not `MM/DD/YYYY`). -/
theorem spec_C9_generate_sorted_uncaught_valueerror_witness :
    dateKeyGS ⟨"", "", "", "", "", ""⟩ = some datetimeMinEnc
    ∧ ∃ r, save_to_csv [Field.issue_date]
          [⟨"P1", "2024-01-02", "a", "w", "c", ""⟩] true = some r
        ∧ r.primary = csvRows [Field.issue_date] [⟨"P1", "2024-01-02", "a", "w", "c", ""⟩]
        ∧ r.sortedFiles = [] ∧ r.sortedOk = false :=
  spec_C9_generate_sorted_uncaught_valueerror [Field.issue_date]
    [⟨"P1", "2024-01-02", "a", "w", "c", ""⟩] ⟨"", "", "", "", "", ""⟩
    rfl (by decide)

/-- C10: every record emitted by any of the three extractors has exactly the
six configured fields (the `Permit` structure, built by each dict literal in
the source) and every field value is a whitespace-stripped string — never a
missing value — so header-driven row writing always finds all six fields. -/
theorem spec_C10_extractor_records_stripped :
    ∀ (table : Option (List (List String))) (soup : Soup) (content : String)
      (p : Permit),
      (p ∈ parse_accela_results table ∨ p ∈ parse_nashville_results soup
        ∨ p ∈ parse_csv_permits content) →
      strippedPermit p := by
  intro table soup content p h
  rcases h with h | h | h
  · cases table with
    | none => cases h
    | some rows =>
      simp only [parse_accela_results, List.mem_map] at h
      obtain ⟨cols, _, rfl⟩ := h
      exact strippedPermit_mkAccelaPermit cols
  · simp only [parse_nashville_results] at h
    split at h
    · simp only [nashvilleCardPermits, List.mem_map] at h
      obtain ⟨t, _, rfl⟩ := h
      exact strippedPermit_mkCardPermit _
    · cases htab : soup.table with
      | none => rw [htab] at h; cases h
      | some rows =>
        rw [htab] at h
        simp only [nashvilleTablePermits, List.mem_map] at h
        obtain ⟨cols, _, rfl⟩ := h
        exact strippedPermit_mkNashTablePermit cols
  · simp only [parse_csv_permits, List.mem_filterMap] at h
    obtain ⟨line, _, hline⟩ := h
    split_ifs at hline
    all_goals cases hline
    exact strippedPermit_mkCsvPermit _

/-- Witness for C10, at a record produced by the generic table extractor from
a 6-column row with surrounding whitespace. -/
theorem spec_C10_extractor_records_stripped_witness :
    strippedPermit ⟨"P1", "01/02/2024", "3 Elm St", "Roof", "ACME", "$5,000"⟩ :=
  spec_C10_extractor_records_stripped
    (some [["h"], [" P1 ", "01/02/2024", "3 Elm St\n", "Roof", "ACME", " $5,000"]])
    ⟨none, []⟩ "" ⟨"P1", "01/02/2024", "3 Elm St", "Roof", "ACME", "$5,000"⟩
    (Or.inl (by decide))

/-- C1 (code bug): `run_all` receives `generate_sorted` but never forwards it —
each `scrape_<county>` calls `save_to_csv(permits, slug)` with the default
`generate_sorted=False` — so the CLI `--sort` flag has no effect whatsoever:
`run_all` behaves identically with the flag set or clear, and no completed
run ever contains a sorted-variant file, contradicting the module docstring
and the `--sort` help text. -/
theorem spec_C1_sort_flag_dropped :
    ∀ (headers : List Field) (env : RunEnv) (g : Bool),
      run_all headers env g = run_all headers env false
      ∧ ∀ os, run_all headers env g = Except.ok os →
          ∀ o ∈ os, ∀ r, o.files = some r → r.sortedFiles = [] := by
  intro headers env g
  refine ⟨rfl, ?_⟩
  intro os hos o ho r hr
  unfold run_all at hos
  cases hb : scrapeSource parseAccelaSoup headers env.bexar false with
  | error e => simp only [hb] at hos; cases hos
  | ok b =>
    simp only [hb] at hos
    cases hh : scrapeSource parseAccelaSoup headers env.hamilton false with
    | error e => simp only [hh] at hos; cases hos
    | ok hm =>
      simp only [hh] at hos
      cases hd : scrapeSource parse_nashville_results headers env.davidson false with
      | error e => simp only [hd] at hos; cases hos
      | ok d =>
        simp only [hd] at hos
        cases ht : scrapeSource parseAccelaSoup headers env.travis false with
        | error e => simp only [ht] at hos; cases hos
        | ok t =>
          simp only [ht] at hos
          cases hos
          simp only [List.mem_cons, List.not_mem_nil, or_false] at ho
          rcases ho with rfl | rfl | rfl | rfl
          · exact scrapeSource_false_no_sorted _ _ _ _ hb r hr
          · exact scrapeSource_false_no_sorted _ _ _ _ hh r hr
          · exact scrapeSource_false_no_sorted _ _ _ _ hd r hr
          · exact scrapeSource_false_no_sorted _ _ _ _ ht r hr

/-- Witness for C1: a run with the sort flag set, whose first source produces
one record; the written file has no sorted variants. -/
theorem spec_C1_sort_flag_dropped_witness :
    run_all [Field.permit_number]
        ⟨⟨true, some ⟨some [["h"], ["P1", "01/02/2024", "a", "w", "c", "v"]], []⟩⟩,
         ⟨true, some ⟨none, []⟩⟩, ⟨true, some ⟨none, []⟩⟩, ⟨true, some ⟨none, []⟩⟩⟩ true
      = Except.ok [⟨some ⟨[["permit_number"], ["P1"]], [], true, true⟩, false, true⟩,
          ⟨none, false, true⟩, ⟨none, false, true⟩, ⟨none, false, true⟩]
    ∧ (⟨[["permit_number"], ["P1"]], [], true, true⟩ : SaveResult).sortedFiles = [] :=
  ⟨by rfl,
    (spec_C1_sort_flag_dropped [Field.permit_number]
      ⟨⟨true, some ⟨some [["h"], ["P1", "01/02/2024", "a", "w", "c", "v"]], []⟩⟩,
       ⟨true, some ⟨none, []⟩⟩, ⟨true, some ⟨none, []⟩⟩, ⟨true, some ⟨none, []⟩⟩⟩ true).2
      [⟨some ⟨[["permit_number"], ["P1"]], [], true, true⟩, false, true⟩,
       ⟨none, false, true⟩, ⟨none, false, true⟩, ⟨none, false, true⟩]
      (by rfl)
      ⟨some ⟨[["permit_number"], ["P1"]], [], true, true⟩, false, true⟩
      (by decide)
      ⟨[["permit_number"], ["P1"]], [], true, true⟩
      (by decide)⟩

/-- C3 counterexample: a browser-session (driver-creation) failure in the
first source is not caught at the source boundary — `get_driver()` runs
before the `try` — so it surfaces to `run_all`'s caller as a process-level
failure and no later source runs. -/
theorem spec_C3_counterexample_driver_failure_escapes :
    run_all [] ⟨⟨false, none⟩, ⟨true, some ⟨none, []⟩⟩, ⟨true, some ⟨none, []⟩⟩,
        ⟨true, some ⟨none, []⟩⟩⟩ false
      = Except.error () := by
  rfl

/-- C3 (amended): a failure raised inside a source's `try` block (navigation,
extraction or sink) is caught at the source boundary with the session
released, and the other sources' outcomes are exactly what they would be had
that source succeeded; but a driver-creation failure occurs before the `try`,
propagates out of the scrape method uncaught, and aborts `run_all` for the
remaining sources. -/
theorem spec_C3_amended_containment_except_driver :
    ∀ (headers : List Field) (envA envB : RunEnv) (s : Soup),
      envA.bexar.driverOk = true → envA.hamilton.driverOk = true →
      envA.davidson.driverOk = true → envA.travis.driverOk = true →
      envA.davidson.nav = none →
      envB.bexar.driverOk = false →
      (∃ b hm t, run_all headers envA false = Except.ok [b, hm, ⟨none, true, true⟩, t]
        ∧ run_all headers { envA with davidson := ⟨true, some s⟩ } false
            = Except.ok [b, hm,
                ⟨save_to_csv headers (parse_nashville_results s) false, false, true⟩, t])
      ∧ run_all headers envB false = Except.error () := by
  intro headers envA envB s h1 h2 h3 h4 hnav hB
  constructor
  · refine ⟨(match envA.bexar.nav with
        | none => ⟨none, true, true⟩
        | some so => ⟨save_to_csv headers (parseAccelaSoup so) false, false, true⟩),
      (match envA.hamilton.nav with
        | none => ⟨none, true, true⟩
        | some so => ⟨save_to_csv headers (parseAccelaSoup so) false, false, true⟩),
      (match envA.travis.nav with
        | none => ⟨none, true, true⟩
        | some so => ⟨save_to_csv headers (parseAccelaSoup so) false, false, true⟩), ?_, ?_⟩
    · rw [run_all_ok headers envA h1 h2 h3 h4 false, hnav]
    · rw [run_all_ok headers { envA with davidson := ⟨true, some s⟩ } h1 h2 rfl h4 false]
  · unfold run_all
    rw [scrapeSource_error parseAccelaSoup headers envB.bexar false hB]

/-- Witness for C3 (amended): concrete environments, the failing one with a
dead driver on the first source. -/
theorem spec_C3_amended_containment_except_driver_witness :
    (∃ b hm t,
      run_all [] ⟨⟨true, some ⟨none, []⟩⟩, ⟨true, some ⟨none, []⟩⟩, ⟨true, none⟩,
          ⟨true, some ⟨none, []⟩⟩⟩ false = Except.ok [b, hm, ⟨none, true, true⟩, t]
      ∧ run_all [] ⟨⟨true, some ⟨none, []⟩⟩, ⟨true, some ⟨none, []⟩⟩,
            ⟨true, some ⟨none, []⟩⟩, ⟨true, some ⟨none, []⟩⟩⟩ false
          = Except.ok [b, hm,
              ⟨save_to_csv [] (parse_nashville_results ⟨none, []⟩) false, false, true⟩, t])
    ∧ run_all [] ⟨⟨false, none⟩, ⟨true, some ⟨none, []⟩⟩, ⟨true, some ⟨none, []⟩⟩,
          ⟨true, some ⟨none, []⟩⟩⟩ false = Except.error () :=
  spec_C3_amended_containment_except_driver []
    ⟨⟨true, some ⟨none, []⟩⟩, ⟨true, some ⟨none, []⟩⟩, ⟨true, none⟩, ⟨true, some ⟨none, []⟩⟩⟩
    ⟨⟨false, none⟩, ⟨true, some ⟨none, []⟩⟩, ⟨true, some ⟨none, []⟩⟩, ⟨true, some ⟨none, []⟩⟩⟩
    ⟨none, []⟩ rfl rfl rfl rfl rfl rfl

end EdgePermits
